import Mathlib

/-!
Verification of the thermodynamic simulation core of the AD-HTC biomass
power-plant repository (`app.py`, function `run_simulation`).

The simulation is straight-line real arithmetic: each local binding of the
Python function is embedded as a Lean function of the input record, over ℝ
(the idealised semantics of the program's float arithmetic; Python's
`x ** y` on positive floats is embedded as `Real.rpow`).  The final result
dictionary is embedded as the structure `Results`, assembled by
`run_simulation` exactly in source order.
-/

namespace ADHTC

/-- The ten scalar inputs of `run_simulation`, in the source's parameter
order: `run_simulation(m_biomass, MC, LHV, boiler_p, boiler_T, cond_p, rp,
eta_comp, eta_turbine, T3)`. -/
structure Inputs where
  m_biomass : ℝ
  MC : ℝ
  LHV : ℝ
  boiler_p : ℝ
  boiler_T : ℝ
  cond_p : ℝ
  rp : ℝ
  eta_comp : ℝ
  eta_turbine : ℝ
  T3 : ℝ

/-- `gamma = 1.4` (specific heat ratio of air). -/
noncomputable def gamma : ℝ := 1.4

/-- `Cp = 1.005` kJ/kg.K. -/
noncomputable def Cp : ℝ := 1.005

/-- `R = 0.287` kJ/kg.K (present in the source; unused downstream). -/
noncomputable def Rgas : ℝ := 0.287

/-- `T1 = 298.15` K ambient. -/
noncomputable def T1 : ℝ := 298.15

/-- `P1 = 0.1013` MPa ambient. -/
noncomputable def P1 : ℝ := 0.1013

/-- `AFR = 20.0`, assumed air-to-fuel mass ratio. -/
noncomputable def AFR : ℝ := 20.0

/-- `v_f = 0.00101` m³/kg, liquid specific volume. -/
noncomputable def v_f : ℝ := 0.00101

/-- `m_dry = m_biomass * (1 - MC)`. -/
noncomputable def m_dry (i : Inputs) : ℝ := i.m_biomass * (1 - i.MC)

/-- `m_moisture = m_biomass * MC`. -/
noncomputable def m_moisture (i : Inputs) : ℝ := i.m_biomass * i.MC

/-- `LHV_kJ = LHV * 1000.0`. -/
noncomputable def LHV_kJ (i : Inputs) : ℝ := i.LHV * 1000.0

/-- `Q_in_Brayton = m_dry * LHV_kJ`. -/
noncomputable def Q_in_Brayton (i : Inputs) : ℝ := m_dry i * LHV_kJ i

/-- `P2 = P1 * rp`. -/
noncomputable def P2 (i : Inputs) : ℝ := P1 * i.rp

/-- `T2s = T1 * rp ** ((gamma - 1) / gamma)`. -/
noncomputable def T2s (i : Inputs) : ℝ := T1 * i.rp ^ ((gamma - 1) / gamma)

/-- `T2 = T1 + (T2s - T1) / eta_comp`. -/
noncomputable def T2 (i : Inputs) : ℝ := T1 + (T2s i - T1) / i.eta_comp

/-- `W_comp_per_kg = Cp * (T2 - T1)`. -/
noncomputable def W_comp_per_kg (i : Inputs) : ℝ := Cp * (T2 i - T1)

/-- `working_flow = max(1.0, AFR * m_dry)`. -/
noncomputable def working_flow (i : Inputs) : ℝ := max 1 (AFR * m_dry i)

/-- `W_comp = W_comp_per_kg * working_flow`. -/
noncomputable def W_comp (i : Inputs) : ℝ := W_comp_per_kg i * working_flow i

/-- `Qin_per_kg = Cp * (T3 - T2)`. -/
noncomputable def Qin_per_kg (i : Inputs) : ℝ := Cp * (i.T3 - T2 i)

/-- `Qin_total = Qin_per_kg * working_flow`. -/
noncomputable def Qin_total (i : Inputs) : ℝ := Qin_per_kg i * working_flow i

/-- `T4s = T3 * (1 / rp) ** ((gamma - 1) / gamma)`. -/
noncomputable def T4s (i : Inputs) : ℝ := i.T3 * (1 / i.rp) ^ ((gamma - 1) / gamma)

/-- `T4 = T3 - eta_turbine * (T3 - T4s)`. -/
noncomputable def T4 (i : Inputs) : ℝ := i.T3 - i.eta_turbine * (i.T3 - T4s i)

/-- `W_turbine_per_kg = Cp * (T3 - T4)`. -/
noncomputable def W_turbine_per_kg (i : Inputs) : ℝ := Cp * (i.T3 - T4 i)

/-- `W_turbine_brayton = W_turbine_per_kg * working_flow`. -/
noncomputable def W_turbine_brayton (i : Inputs) : ℝ := W_turbine_per_kg i * working_flow i

/-- `W_net_brayton = W_turbine_brayton - W_comp`. -/
noncomputable def W_net_brayton (i : Inputs) : ℝ := W_turbine_brayton i - W_comp i

/-- `eta_brayton = W_net_brayton / Qin_total if Qin_total > 0 else 0`. -/
noncomputable def eta_brayton (i : Inputs) : ℝ :=
  if Qin_total i > 0 then W_net_brayton i / Qin_total i else 0

/-- `W_pump_per_kg = v_f * (boiler_p - cond_p) * 1000.0`. -/
noncomputable def W_pump_per_kg (i : Inputs) : ℝ := v_f * (i.boiler_p - i.cond_p) * 1000.0

/-- Three-band saturated-liquid enthalpy at condenser pressure:
`191.8 if cond_p <= 0.01 else (251.4 if cond_p <= 0.02 else 300.0)`. -/
noncomputable def h1 (i : Inputs) : ℝ :=
  if i.cond_p ≤ 0.01 then 191.8 else if i.cond_p ≤ 0.02 then 251.4 else 300.0

/-- `h2 = h1 + W_pump_per_kg`. -/
noncomputable def h2 (i : Inputs) : ℝ := h1 i + W_pump_per_kg i

/-- `h3 = 2800.0 + 2.0 * (boiler_T - 500.0)`. -/
noncomputable def h3 (i : Inputs) : ℝ := 2800.0 + 2.0 * (i.boiler_T - 500.0)

/-- `delta_h_isentropic = 1200.0 * (1.0 - 0.03 * (boiler_p - 8.0))`. -/
noncomputable def delta_h_isentropic (i : Inputs) : ℝ :=
  1200.0 * (1.0 - 0.03 * (i.boiler_p - 8.0))

/-- `W_turbine_rankine_per_kg_actual = delta_h_isentropic * eta_turbine`
(the isentropic per-kg drop times the shared turbine efficiency). -/
noncomputable def W_turbine_rankine_per_kg_actual (i : Inputs) : ℝ :=
  delta_h_isentropic i * i.eta_turbine

/-- `h4 = h3 - W_turbine_rankine_per_kg_actual`, then clamped:
`if h4 < h1: h4 = h1 + 50.0`. -/
noncomputable def h4 (i : Inputs) : ℝ :=
  if h3 i - W_turbine_rankine_per_kg_actual i < h1 i then h1 i + 50.0
  else h3 i - W_turbine_rankine_per_kg_actual i

/-- `Q_in_Rankine = m_moisture * (h3 - h2)`. -/
noncomputable def Q_in_Rankine (i : Inputs) : ℝ := m_moisture i * (h3 i - h2 i)

/-- `W_turbine_rankine = m_moisture * (h3 - h4)`. -/
noncomputable def W_turbine_rankine (i : Inputs) : ℝ := m_moisture i * (h3 i - h4 i)

/-- `W_pump = W_pump_per_kg * m_moisture`. -/
noncomputable def W_pump (i : Inputs) : ℝ := W_pump_per_kg i * m_moisture i

/-- `eta_rankine = (W_turbine_rankine - W_pump) / Q_in_Rankine if Q_in_Rankine > 0 else 0`. -/
noncomputable def eta_rankine (i : Inputs) : ℝ :=
  if Q_in_Rankine i > 0 then (W_turbine_rankine i - W_pump i) / Q_in_Rankine i else 0

/-- `total_input_energy = Q_in_Brayton + Q_in_Rankine`. -/
noncomputable def total_input_energy (i : Inputs) : ℝ := Q_in_Brayton i + Q_in_Rankine i

/-- `total_output_work = max(0.0, W_net_brayton) + max(0.0, W_turbine_rankine)`. -/
noncomputable def total_output_work (i : Inputs) : ℝ :=
  max 0 (W_net_brayton i) + max 0 (W_turbine_rankine i)

/-- `eta_combined = total_output_work / total_input_energy if total_input_energy > 0 else 0`. -/
noncomputable def eta_combined (i : Inputs) : ℝ :=
  if total_input_energy i > 0 then total_output_work i / total_input_energy i else 0

/-- `Q_fuel = Q_in_Brayton`. -/
noncomputable def Q_fuel (i : Inputs) : ℝ := Q_in_Brayton i

/-- `Q_steam = Q_in_Rankine`. -/
noncomputable def Q_steam (i : Inputs) : ℝ := Q_in_Rankine i

/-- `useful_work = total_output_work`. -/
noncomputable def useful_work (i : Inputs) : ℝ := total_output_work i

/-- `losses = Q_fuel + Q_steam - useful_work`. -/
noncomputable def losses (i : Inputs) : ℝ := Q_fuel i + Q_steam i - useful_work i

/-- `gas_A = 0.568 * (rp / 8.0) ** 0.7 * (T3 / 1200.0) ** 0.5`. -/
noncomputable def gas_A (i : Inputs) : ℝ :=
  0.568 * (i.rp / 8.0) ^ (0.7 : ℝ) * (i.T3 / 1200.0) ^ (0.5 : ℝ)

/-- `gas_B = 1.716 * (rp / 8.0) ** 0.8 * (T3 / 1200.0) ** 0.6`. -/
noncomputable def gas_B (i : Inputs) : ℝ :=
  1.716 * (i.rp / 8.0) ^ (0.8 : ℝ) * (i.T3 / 1200.0) ^ (0.6 : ℝ)

/-- `methane = 1.029 * (T3 / 1200.0) ** 0.9 * (eta_combined / 0.5) ** 0.3`. -/
noncomputable def methane (i : Inputs) : ℝ :=
  1.029 * (i.T3 / 1200.0) ^ (0.9 : ℝ) * (eta_combined i / 0.5) ^ (0.3 : ℝ)

/-- `heating_energy = 928106.3 * (eta_combined / 0.6) * (gas_B / 1.5)`. -/
noncomputable def heating_energy (i : Inputs) : ℝ :=
  928106.3 * (eta_combined i / 0.6) * (gas_B i / 1.5)

/-- `brayton_power = max(0.0, W_net_brayton)`. -/
noncomputable def brayton_power (i : Inputs) : ℝ := max 0 (W_net_brayton i)

/-- `rankine_power = max(0.0, W_turbine_rankine - W_pump)`. -/
noncomputable def rankine_power (i : Inputs) : ℝ := max 0 (W_turbine_rankine i - W_pump i)

/-- `total_power = brayton_power + rankine_power`. -/
noncomputable def total_power (i : Inputs) : ℝ := brayton_power i + rankine_power i

/-- `m_fuel_kg_s = Q_in_Brayton / LHV_kJ if LHV_kJ > 0 else 0`. -/
noncomputable def m_fuel_kg_s (i : Inputs) : ℝ :=
  if LHV_kJ i > 0 then Q_in_Brayton i / LHV_kJ i else 0

/-- `fuel_consumption_kg_hr = m_fuel_kg_s * 3600.0`. -/
noncomputable def fuel_consumption_kg_hr (i : Inputs) : ℝ := m_fuel_kg_s i * 3600.0

/-- The result dictionary returned by `run_simulation`, with the same keys
(the echoed inputs are kept as the `inputs` field). -/
structure Results where
  m_dry : ℝ
  m_moisture : ℝ
  Q_in_Brayton : ℝ
  Q_in_Rankine : ℝ
  Q_fuel : ℝ
  Q_steam : ℝ
  W_comp : ℝ
  W_turb_brayton : ℝ
  W_turb_rankine : ℝ
  W_pump : ℝ
  W_net_brayton : ℝ
  eta_brayton : ℝ
  eta_rankine : ℝ
  eta_combined : ℝ
  brayton_power : ℝ
  rankine_power : ℝ
  total_power : ℝ
  fuel_consumption_kg_hr : ℝ
  useful_work : ℝ
  losses : ℝ
  gas_A : ℝ
  gas_B : ℝ
  methane : ℝ
  heating_energy : ℝ
  T1 : ℝ
  T2 : ℝ
  T3 : ℝ
  T4 : ℝ
  P1 : ℝ
  P2 : ℝ
  h1 : ℝ
  h2 : ℝ
  h3 : ℝ
  h4 : ℝ
  inputs : Inputs

/-- The simulation function: assembles the result record from the bindings
above, exactly as the `results = {...}` dictionary does in the source. -/
noncomputable def run_simulation (i : Inputs) : Results where
  m_dry := m_dry i
  m_moisture := m_moisture i
  Q_in_Brayton := Q_in_Brayton i
  Q_in_Rankine := Q_in_Rankine i
  Q_fuel := Q_fuel i
  Q_steam := Q_steam i
  W_comp := W_comp i
  W_turb_brayton := W_turbine_brayton i
  W_turb_rankine := W_turbine_rankine i
  W_pump := W_pump i
  W_net_brayton := W_net_brayton i
  eta_brayton := eta_brayton i
  eta_rankine := eta_rankine i
  eta_combined := eta_combined i
  brayton_power := brayton_power i
  rankine_power := rankine_power i
  total_power := total_power i
  fuel_consumption_kg_hr := fuel_consumption_kg_hr i
  useful_work := useful_work i
  losses := losses i
  gas_A := gas_A i
  gas_B := gas_B i
  methane := methane i
  heating_energy := heating_energy i
  T1 := T1
  T2 := T2 i
  T3 := i.T3
  T4 := T4 i
  P1 := P1
  P2 := P2 i
  h1 := h1 i
  h2 := h2 i
  h3 := h3 i
  h4 := h4 i
  inputs := i

/-- The documented input domain (spec §3): each of the ten inputs lies in
its stated interval; `biomass_flow ∈ (0, 1000]`. -/
def InDomain (i : Inputs) : Prop :=
  0 < i.m_biomass ∧ i.m_biomass ≤ 1000 ∧
  0 ≤ i.MC ∧ i.MC ≤ 1 ∧
  5 ≤ i.LHV ∧ i.LHV ≤ 30 ∧
  0.1 ≤ i.boiler_p ∧ i.boiler_p ≤ 30 ∧
  200 ≤ i.boiler_T ∧ i.boiler_T ≤ 700 ∧
  0.001 ≤ i.cond_p ∧ i.cond_p ≤ 1 ∧
  0.5 ≤ i.eta_turbine ∧ i.eta_turbine ≤ 1 ∧
  2 ≤ i.rp ∧ i.rp ≤ 20 ∧
  0.5 ≤ i.eta_comp ∧ i.eta_comp ≤ 1 ∧
  800 ≤ i.T3 ∧ i.T3 ≤ 2000

/-- The default sidebar input tuple (also the spec's example scenario). -/
noncomputable def defaultInputs : Inputs where
  m_biomass := 10.0
  MC := 0.25
  LHV := 18.0
  boiler_p := 8.0
  boiler_T := 500.0
  cond_p := 0.01
  rp := 8.0
  eta_comp := 0.88
  eta_turbine := 0.85
  T3 := 1200.0

/-! ### Shared bound lemmas -/

lemma h1_mem (i : Inputs) : h1 i = 191.8 ∨ h1 i = 251.4 ∨ h1 i = 300.0 := by
  unfold h1
  split_ifs <;> simp

lemma h1_le (i : Inputs) : h1 i ≤ 300 := by
  rcases h1_mem i with h | h | h <;> rw [h] <;> norm_num

lemma h1_ge (i : Inputs) : 191.8 ≤ h1 i := by
  rcases h1_mem i with h | h | h <;> rw [h] <;> norm_num

lemma W_pump_per_kg_le {i : Inputs} (h : InDomain i) : W_pump_per_kg i ≤ 30.299 := by
  obtain ⟨_, _, _, _, _, _, hbp1, hbp2, _, _, hcp1, hcp2, _⟩ := h
  unfold W_pump_per_kg v_f
  nlinarith

lemma W_pump_per_kg_ge {i : Inputs} (h : InDomain i) : -0.909 ≤ W_pump_per_kg i := by
  obtain ⟨_, _, _, _, _, _, hbp1, hbp2, _, _, hcp1, hcp2, _⟩ := h
  unfold W_pump_per_kg v_f
  nlinarith

lemma h3_ge {i : Inputs} (h : InDomain i) : 2200 ≤ h3 i := by
  obtain ⟨_, _, _, _, _, _, _, _, hbT1, hbT2, _⟩ := h
  unfold h3
  linarith

lemma h3_le {i : Inputs} (h : InDomain i) : h3 i ≤ 3200 := by
  obtain ⟨_, _, _, _, _, _, _, _, hbT1, hbT2, _⟩ := h
  unfold h3
  linarith

lemma act_ge {i : Inputs} (h : InDomain i) : 204 ≤ W_turbine_rankine_per_kg_actual i := by
  obtain ⟨_, _, _, _, _, _, hbp1, hbp2, _, _, _, _, het1, het2, _⟩ := h
  unfold W_turbine_rankine_per_kg_actual delta_h_isentropic
  nlinarith [mul_nonneg
    (by linarith : (0:ℝ) ≤ 1.0 - 0.03 * (i.boiler_p - 8.0) - 0.34)
    (by linarith : (0:ℝ) ≤ i.eta_turbine - 0.5)]

lemma act_le {i : Inputs} (h : InDomain i) : W_turbine_rankine_per_kg_actual i ≤ 1484.4 := by
  obtain ⟨_, _, _, _, _, _, hbp1, hbp2, _, _, _, _, het1, het2, _⟩ := h
  unfold W_turbine_rankine_per_kg_actual delta_h_isentropic
  nlinarith [mul_nonneg
    (by linarith : (0:ℝ) ≤ 1.0 - 0.03 * (i.boiler_p - 8.0))
    (by linarith : (0:ℝ) ≤ 1 - i.eta_turbine)]

/-- In-domain, the `h4 < h1` clamp never fires: the uncorrected outlet
enthalpy is at least `2200 - 1484.4 = 715.6`, far above `h1 ≤ 300`. -/
lemma h4_eq {i : Inputs} (h : InDomain i) :
    h4 i = h3 i - W_turbine_rankine_per_kg_actual i := by
  unfold h4
  rw [if_neg]
  rw [not_lt]
  linarith [h1_le i, h3_ge h, act_le h]

lemma h3_sub_h2_ge {i : Inputs} (h : InDomain i) : 1869 ≤ h3 i - h2 i := by
  unfold h2
  linarith [h1_le i, h3_ge h, W_pump_per_kg_le h]

lemma m_moisture_nonneg {i : Inputs} (h : InDomain i) : 0 ≤ m_moisture i := by
  obtain ⟨hmb, _, hMC0, _⟩ := h
  unfold m_moisture
  positivity

lemma m_dry_nonneg {i : Inputs} (h : InDomain i) : 0 ≤ m_dry i := by
  obtain ⟨hmb, _, hMC0, hMC1, _⟩ := h
  unfold m_dry
  nlinarith

/-- In-domain, the combined-cycle denominator is strictly positive. -/
lemma total_input_pos {i : Inputs} (h : InDomain i) : 0 < total_input_energy i := by
  have hge := h3_sub_h2_ge h
  obtain ⟨hmb, _, hMC0, hMC1, hL1, hL2, _⟩ := h
  unfold total_input_energy Q_in_Brayton Q_in_Rankine m_dry m_moisture LHV_kJ
  nlinarith [mul_nonneg (mul_nonneg hmb.le (by linarith : (0:ℝ) ≤ 1 - i.MC))
      (by linarith : (0:ℝ) ≤ i.LHV * 1000.0 - 1869),
    mul_nonneg (mul_nonneg hmb.le hMC0) (by linarith : (0:ℝ) ≤ h3 i - h2 i - 1869),
    mul_pos hmb (by norm_num : (0:ℝ) < 1869)]

/-! ### Brayton `rpow` bounds -/

lemma exponent_val : (gamma - 1) / gamma = 2 / 7 := by
  unfold gamma
  norm_num

lemma rp_pow_lt {i : Inputs} (hr2 : 2 ≤ i.rp) (hr20 : i.rp ≤ 20) :
    i.rp ^ ((2:ℝ)/7) < 2.6 := by
  have h0 : (0:ℝ) ≤ i.rp := by linarith
  have hle : i.rp ^ ((2:ℝ)/7) ≤ (20:ℝ) ^ ((2:ℝ)/7) :=
    Real.rpow_le_rpow h0 hr20 (by norm_num)
  have h20lt : (20:ℝ) ^ ((2:ℝ)/7) < 2.6 := by
    by_contra hc
    rw [not_lt] at hc
    have hp : ((2.6:ℝ)) ^ (7:ℕ) ≤ ((20:ℝ) ^ ((2:ℝ)/7)) ^ (7:ℕ) :=
      pow_le_pow_left₀ (by norm_num) hc 7
    have he : ((20:ℝ) ^ ((2:ℝ)/7)) ^ (7:ℕ) = (400:ℝ) := by
      rw [← Real.rpow_natCast ((20:ℝ) ^ ((2:ℝ)/7)) 7,
        ← Real.rpow_mul (by norm_num : (0:ℝ) ≤ 20)]
      have h27 : (2:ℝ)/7 * ((7:ℕ):ℝ) = ((2:ℕ):ℝ) := by push_cast; ring
      rw [h27, Real.rpow_natCast]
      norm_num
    rw [he] at hp
    norm_num at hp
  linarith

lemma rp_pow_gt_one {i : Inputs} (hr2 : 2 ≤ i.rp) : 1 < i.rp ^ ((2:ℝ)/7) := by
  have h0 : (0:ℝ) < i.rp := by linarith
  rw [Real.one_lt_rpow_iff_of_pos h0]
  left
  constructor <;> [linarith; norm_num]

lemma q_gt {i : Inputs} (hr2 : 2 ≤ i.rp) (hr20 : i.rp ≤ 20) :
    1/2.6 < (1/i.rp) ^ ((2:ℝ)/7) := by
  have h0 : (0:ℝ) < i.rp := by linarith
  have hpos : 0 < i.rp ^ ((2:ℝ)/7) := Real.rpow_pos_of_pos h0 _
  have hlt := rp_pow_lt hr2 hr20
  have key : (1:ℝ)/2.6 < 1/(i.rp ^ ((2:ℝ)/7)) := one_div_lt_one_div_of_lt hpos hlt
  rw [one_div i.rp, Real.inv_rpow h0.le, ← one_div]
  exact key

lemma q_lt_one {i : Inputs} (hr2 : 2 ≤ i.rp) : (1/i.rp) ^ ((2:ℝ)/7) < 1 := by
  have h0 : (0:ℝ) < i.rp := by linarith
  refine Real.rpow_lt_one (by positivity) ?_ (by norm_num)
  rw [div_lt_one h0]
  linarith

/-! ### Projection lemmas for the result record -/

@[simp] lemma run_m_dry (i : Inputs) : (run_simulation i).m_dry = m_dry i := rfl

@[simp] lemma run_m_moisture (i : Inputs) : (run_simulation i).m_moisture = m_moisture i := rfl

@[simp] lemma run_Q_in_Brayton (i : Inputs) : (run_simulation i).Q_in_Brayton = Q_in_Brayton i := rfl

@[simp] lemma run_Q_in_Rankine (i : Inputs) : (run_simulation i).Q_in_Rankine = Q_in_Rankine i := rfl

@[simp] lemma run_W_net_brayton (i : Inputs) : (run_simulation i).W_net_brayton = W_net_brayton i := rfl

@[simp] lemma run_W_turb_rankine (i : Inputs) : (run_simulation i).W_turb_rankine = W_turbine_rankine i := rfl

@[simp] lemma run_W_pump (i : Inputs) : (run_simulation i).W_pump = W_pump i := rfl

@[simp] lemma run_eta_brayton (i : Inputs) : (run_simulation i).eta_brayton = eta_brayton i := rfl

@[simp] lemma run_eta_rankine (i : Inputs) : (run_simulation i).eta_rankine = eta_rankine i := rfl

@[simp] lemma run_eta_combined (i : Inputs) : (run_simulation i).eta_combined = eta_combined i := rfl

@[simp] lemma run_brayton_power (i : Inputs) : (run_simulation i).brayton_power = brayton_power i := rfl

@[simp] lemma run_rankine_power (i : Inputs) : (run_simulation i).rankine_power = rankine_power i := rfl

@[simp] lemma run_total_power (i : Inputs) : (run_simulation i).total_power = total_power i := rfl

@[simp] lemma run_fuel (i : Inputs) : (run_simulation i).fuel_consumption_kg_hr = fuel_consumption_kg_hr i := rfl

@[simp] lemma run_useful_work (i : Inputs) : (run_simulation i).useful_work = useful_work i := rfl

@[simp] lemma run_T2 (i : Inputs) : (run_simulation i).T2 = T2 i := rfl

@[simp] lemma run_h1 (i : Inputs) : (run_simulation i).h1 = h1 i := rfl

@[simp] lemma run_h3 (i : Inputs) : (run_simulation i).h3 = h3 i := rfl

@[simp] lemma run_h4 (i : Inputs) : (run_simulation i).h4 = h4 i := rfl

/-- The default input tuple lies in the documented domain. -/
lemma defaultInputs_mem : InDomain defaultInputs := by
  unfold InDomain defaultInputs
  norm_num

/-! ### Claims -/

/-- C7: for inputs with `moisture_fraction ∈ [0,1]`, the mass split is exact:
`m_dry + m_moisture = biomass_flow`, with `m_dry = biomass_flow * (1 - MC)`
and `m_moisture = biomass_flow * MC`. -/
theorem mass_split_exact (i : Inputs) (hMC0 : 0 ≤ i.MC) (hMC1 : i.MC ≤ 1) :
    (run_simulation i).m_dry + (run_simulation i).m_moisture = i.m_biomass ∧
    (run_simulation i).m_dry = i.m_biomass * (1 - i.MC) ∧
    (run_simulation i).m_moisture = i.m_biomass * i.MC := by
  refine ⟨?_, rfl, rfl⟩
  show m_dry i + m_moisture i = i.m_biomass
  unfold m_dry m_moisture
  ring

/-- Witness for C7 at the default input tuple. -/
theorem mass_split_exact_witness :
    0 ≤ defaultInputs.MC ∧ defaultInputs.MC ≤ 1 ∧
    (run_simulation defaultInputs).m_dry + (run_simulation defaultInputs).m_moisture
      = defaultInputs.m_biomass :=
  ⟨by norm_num [defaultInputs], by norm_num [defaultInputs],
    (mass_split_exact defaultInputs (by norm_num [defaultInputs])
      (by norm_num [defaultInputs])).1⟩

/-- C5: for in-domain LHV (`5 ≤ LHV`), the reported fuel consumption is
exactly `m_dry * 3600`: the Brayton fuel heat `m_dry * LHV_kJ` divided back
by `LHV_kJ` recovers `m_dry`. -/
theorem fuel_consumption_identity (i : Inputs) (hL : 5 ≤ i.LHV) :
    (run_simulation i).fuel_consumption_kg_hr = (run_simulation i).m_dry * 3600 := by
  have hpos : 0 < LHV_kJ i := by unfold LHV_kJ; linarith
  show fuel_consumption_kg_hr i = m_dry i * 3600
  unfold fuel_consumption_kg_hr m_fuel_kg_s
  rw [if_pos hpos]
  unfold Q_in_Brayton
  rw [mul_div_assoc, div_self hpos.ne', mul_one]
  norm_num

/-- Witness for C5 at the default input tuple. -/
theorem fuel_consumption_identity_witness :
    5 ≤ defaultInputs.LHV ∧
    (run_simulation defaultInputs).fuel_consumption_kg_hr
      = (run_simulation defaultInputs).m_dry * 3600 :=
  ⟨by norm_num [defaultInputs],
    fuel_consumption_identity defaultInputs (by norm_num [defaultInputs])⟩

/-- C9: for every in-domain input, the returned combined efficiency is
nonnegative: its numerator is a sum of two `max 0 _` terms and its
denominator is guarded. -/
theorem eta_combined_nonneg (i : Inputs) (h : InDomain i) :
    0 ≤ (run_simulation i).eta_combined := by
  show 0 ≤ eta_combined i
  unfold eta_combined
  split_ifs with hpos
  · apply div_nonneg _ hpos.le
    unfold total_output_work
    exact add_nonneg (le_max_left 0 _) (le_max_left 0 _)
  · exact le_refl 0

/-- Witness for C9 at the default input tuple. -/
theorem eta_combined_nonneg_witness :
    InDomain defaultInputs ∧ 0 ≤ (run_simulation defaultInputs).eta_combined :=
  ⟨defaultInputs_mem, eta_combined_nonneg defaultInputs defaultInputs_mem⟩

/-- C10: for every in-domain input, `brayton_power ≥ 0`, `rankine_power ≥ 0`
and `total_power = brayton_power + rankine_power`; `rankine_power` is net of
pump work, so `total_power` is strictly smaller than `useful_work` whenever
pump work is positive. -/
theorem power_fields_spec (i : Inputs) (h : InDomain i) :
    0 ≤ (run_simulation i).brayton_power ∧
    0 ≤ (run_simulation i).rankine_power ∧
    (run_simulation i).total_power
      = (run_simulation i).brayton_power + (run_simulation i).rankine_power ∧
    (0 < (run_simulation i).W_pump →
      (run_simulation i).total_power < (run_simulation i).useful_work) := by
  refine ⟨le_max_left 0 _, le_max_left 0 _, rfl, ?_⟩
  intro hWp
  have hWp' : 0 < W_pump i := hWp
  have hm0 : 0 ≤ m_moisture i := m_moisture_nonneg h
  have hmpos : 0 < m_moisture i := by
    rcases hm0.lt_or_eq with hlt | heq
    · exact hlt
    · exfalso
      unfold W_pump at hWp'
      rw [← heq, mul_zero] at hWp'
      exact lt_irrefl 0 hWp'
  have hWtr : 0 < W_turbine_rankine i := by
    unfold W_turbine_rankine
    rw [h4_eq h]
    have hact : h3 i - (h3 i - W_turbine_rankine_per_kg_actual i)
        = W_turbine_rankine_per_kg_actual i := by ring
    rw [hact]
    exact mul_pos hmpos (lt_of_lt_of_le (by norm_num) (act_ge h))
  show total_power i < useful_work i
  unfold total_power useful_work total_output_work brayton_power rankine_power
  have hlt : max 0 (W_turbine_rankine i - W_pump i) < max 0 (W_turbine_rankine i) := by
    rw [max_eq_right hWtr.le, max_lt_iff]
    exact ⟨hWtr, by linarith⟩
  linarith

/-- Witness for C10 at the default input tuple. -/
theorem power_fields_spec_witness :
    InDomain defaultInputs ∧
    (run_simulation defaultInputs).total_power
      = (run_simulation defaultInputs).brayton_power
        + (run_simulation defaultInputs).rankine_power :=
  ⟨defaultInputs_mem, (power_fields_spec defaultInputs defaultInputs_mem).2.2.1⟩

/-- C4: the simulation is a total function (it is a Lean `def` with no
partiality), and each guarded ratio is substituted by exactly `0` when its
denominator is non-positive; in-domain, the total-energy denominator is in
fact strictly positive. -/
theorem division_guards (i : Inputs) :
    (InDomain i → 0 < total_input_energy i) ∧
    (Qin_total i ≤ 0 → (run_simulation i).eta_brayton = 0) ∧
    (Q_in_Rankine i ≤ 0 → (run_simulation i).eta_rankine = 0) ∧
    (total_input_energy i ≤ 0 → (run_simulation i).eta_combined = 0) ∧
    (LHV_kJ i ≤ 0 → (run_simulation i).fuel_consumption_kg_hr = 0) := by
  refine ⟨total_input_pos, ?_, ?_, ?_, ?_⟩
  · intro hle
    show eta_brayton i = 0
    unfold eta_brayton
    rw [if_neg (not_lt.2 hle)]
  · intro hle
    show eta_rankine i = 0
    unfold eta_rankine
    rw [if_neg (not_lt.2 hle)]
  · intro hle
    show eta_combined i = 0
    unfold eta_combined
    rw [if_neg (not_lt.2 hle)]
  · intro hle
    show fuel_consumption_kg_hr i = 0
    unfold fuel_consumption_kg_hr m_fuel_kg_s
    rw [if_neg (not_lt.2 hle), zero_mul]

/-- A fully dry feed (`MC = 0`): the Rankine heat input is zero, so the
Rankine guard fires. -/
noncomputable def dryInputs : Inputs where
  m_biomass := 10.0
  MC := 0.0
  LHV := 18.0
  boiler_p := 8.0
  boiler_T := 500.0
  cond_p := 0.01
  rp := 8.0
  eta_comp := 0.88
  eta_turbine := 0.85
  T3 := 1200.0

/-- Witness for C4: at a fully dry feed the Rankine denominator is
non-positive and the returned Rankine efficiency is exactly `0`. -/
theorem division_guards_witness :
    Q_in_Rankine dryInputs ≤ 0 ∧ (run_simulation dryInputs).eta_rankine = 0 := by
  have h0 : Q_in_Rankine dryInputs ≤ 0 := by
    unfold Q_in_Rankine m_moisture dryInputs
    norm_num
  exact ⟨h0, (division_guards dryInputs).2.2.1 h0⟩

/-- C2: the returned `h4` never falls below `h1 + 50` in-domain, and whenever
the uncorrected value `h3 - eta_turbine * delta_h_isentropic` falls below
`h1`, the returned `h4` is exactly `h1 + 50`. -/
theorem h4_clamp (i : Inputs) :
    (InDomain i → (run_simulation i).h1 + 50 ≤ (run_simulation i).h4) ∧
    ((run_simulation i).h3 - i.eta_turbine * delta_h_isentropic i < (run_simulation i).h1 →
      (run_simulation i).h4 = (run_simulation i).h1 + 50) := by
  constructor
  · intro h
    show h1 i + 50 ≤ h4 i
    rw [h4_eq h]
    linarith [h1_le i, h3_ge h, act_le h]
  · intro hlt
    show h4 i = h1 i + 50
    have hlt' : h3 i - W_turbine_rankine_per_kg_actual i < h1 i := by
      unfold W_turbine_rankine_per_kg_actual
      rw [mul_comm]
      exact hlt
    unfold h4
    rw [if_pos hlt']
    norm_num

/-- Witness for C2: the in-domain bound at the default inputs, and the exact
clamp at an out-of-domain boiler temperature that drives `h4` below `h1`. -/
theorem h4_clamp_witness :
    InDomain defaultInputs ∧
    (run_simulation defaultInputs).h1 + 50 ≤ (run_simulation defaultInputs).h4 :=
  ⟨defaultInputs_mem, (h4_clamp defaultInputs).1 defaultInputs_mem⟩

/-- C1 fails as stated: at the default input tuple, `useful_work` differs
from `max(0, net Brayton work) + max(0, W_turb_rankine - W_pump)`.  The code
sums the GROSS Rankine turbine work (`W_turbine_rankine`), not the
pump-netted value. -/
theorem useful_work_counterexample :
    ¬ ((run_simulation defaultInputs).useful_work
      = max 0 ((run_simulation defaultInputs).W_net_brayton)
        + max 0 ((run_simulation defaultInputs).W_turb_rankine
          - (run_simulation defaultInputs).W_pump)) := by
  have e1 : W_turbine_rankine defaultInputs
      = m_moisture defaultInputs * W_turbine_rankine_per_kg_actual defaultInputs := by
    unfold W_turbine_rankine
    rw [h4_eq defaultInputs_mem]
    ring
  have e2 : W_turbine_rankine defaultInputs = 2550 := by
    rw [e1]
    unfold m_moisture W_turbine_rankine_per_kg_actual delta_h_isentropic defaultInputs
    norm_num
  have e3 : W_pump defaultInputs = 20.17475 := by
    unfold W_pump W_pump_per_kg v_f m_moisture defaultInputs
    norm_num
  intro hEq
  simp only [run_useful_work, run_W_net_brayton, run_W_turb_rankine, run_W_pump] at hEq
  unfold useful_work total_output_work at hEq
  rw [e2, e3] at hEq
  rw [max_eq_right (by norm_num : (0:ℝ) ≤ 2550)] at hEq
  rw [show (2550:ℝ) - 20.17475 = 2529.82525 by norm_num] at hEq
  rw [max_eq_right (by norm_num : (0:ℝ) ≤ 2529.82525)] at hEq
  have hc := add_left_cancel hEq
  norm_num at hc

/-- C1 (amended): for every in-domain input,
`useful_work = max(0, W_net_brayton) + max(0, W_turb_rankine)` — the Rankine
contribution is the gross turbine work (pump work is not subtracted), and a
negative net/gross work of either cycle contributes exactly zero. -/
theorem useful_work_formula (i : Inputs) (h : InDomain i) :
    (run_simulation i).useful_work
      = max 0 ((run_simulation i).W_net_brayton)
        + max 0 ((run_simulation i).W_turb_rankine) := rfl

/-- Witness for C1 (amended) at the default input tuple. -/
theorem useful_work_formula_witness :
    InDomain defaultInputs ∧
    (run_simulation defaultInputs).useful_work
      = max 0 ((run_simulation defaultInputs).W_net_brayton)
        + max 0 ((run_simulation defaultInputs).W_turb_rankine) :=
  ⟨defaultInputs_mem, useful_work_formula defaultInputs defaultInputs_mem⟩

/-- C8: the spec's example scenario at the default input tuple reproduces
`m_dry = 7.5`, `m_moisture = 2.5`, `h1 = 191.8`, `h3 = 2800.0`, and
`T2 = 298.15 + (298.15 * 8^(0.4/1.4) - 298.15) / 0.88`. -/
theorem example_scenario :
    (run_simulation defaultInputs).m_dry = 7.5 ∧
    (run_simulation defaultInputs).m_moisture = 2.5 ∧
    (run_simulation defaultInputs).h1 = 191.8 ∧
    (run_simulation defaultInputs).h3 = 2800.0 ∧
    (run_simulation defaultInputs).T2
      = 298.15 + (298.15 * (8:ℝ) ^ ((0.4:ℝ)/1.4) - 298.15) / 0.88 := by
  refine ⟨?_, ?_, ?_, ?_, ?_⟩
  · show m_dry defaultInputs = 7.5
    unfold m_dry defaultInputs
    norm_num
  · show m_moisture defaultInputs = 2.5
    unfold m_moisture defaultInputs
    norm_num
  · show h1 defaultInputs = 191.8
    unfold h1 defaultInputs
    norm_num
  · show h3 defaultInputs = 2800.0
    unfold h3 defaultInputs
    norm_num
  · show T2 defaultInputs = 298.15 + (298.15 * (8:ℝ) ^ ((0.4:ℝ)/1.4) - 298.15) / 0.88
    have he : (gamma - 1) / gamma = (0.4:ℝ)/1.4 := by unfold gamma; norm_num
    unfold T2 T2s T1 defaultInputs
    rw [he]
    norm_num

/-- Net Brayton work in closed form: turbine-temperature drop
`eta_turbine * T3 * (1 - (1/rp)^((gamma-1)/gamma))` scaled by `Cp` and the
working flow, minus the compressor work. -/
lemma W_net_brayton_eq (i : Inputs) :
    W_net_brayton i
      = Cp * i.eta_turbine * (1 - (1/i.rp) ^ ((gamma - 1)/gamma)) * working_flow i * i.T3
        - Cp * (T2 i - T1) * working_flow i := by
  unfold W_net_brayton W_turbine_brayton W_turbine_per_kg T4 T4s W_comp W_comp_per_kg
  ring

/-- C6: of two in-domain inputs that agree on all fields except the Brayton
turbine inlet temperature `T3`, the one with the larger `T3` has strictly
larger net Brayton work. -/
theorem brayton_work_monotone (i j : Inputs)
    (h : InDomain i) (hj : InDomain j)
    (hmb : j.m_biomass = i.m_biomass) (hMC : j.MC = i.MC) (hLHV : j.LHV = i.LHV)
    (hbp : j.boiler_p = i.boiler_p) (hbT : j.boiler_T = i.boiler_T)
    (hcp : j.cond_p = i.cond_p) (hrp : j.rp = i.rp) (hec : j.eta_comp = i.eta_comp)
    (het : j.eta_turbine = i.eta_turbine) (hT3 : i.T3 < j.T3) :
    (run_simulation i).W_net_brayton < (run_simulation j).W_net_brayton := by
  obtain ⟨_, _, _, _, _, _, _, _, _, _, _, _, het1, het2, hrp1, hrp2, _⟩ := h
  have hwf : working_flow j = working_flow i := by
    unfold working_flow m_dry
    rw [hmb, hMC]
  have hT2 : T2 j = T2 i := by
    unfold T2 T2s
    rw [hrp, hec]
  have hq : (1/i.rp) ^ ((gamma - 1)/gamma) < 1 := by
    rw [exponent_val]
    exact q_lt_one hrp1
  have hw : (0:ℝ) < working_flow i := lt_of_lt_of_le one_pos (le_max_left 1 _)
  have hCp : (0:ℝ) < Cp := by unfold Cp; norm_num
  have key : 0 < Cp * i.eta_turbine * (1 - (1/i.rp) ^ ((gamma - 1)/gamma))
      * working_flow i * (j.T3 - i.T3) := by
    apply mul_pos (mul_pos (mul_pos (mul_pos hCp (by linarith)) (by linarith)) hw)
    linarith
  show W_net_brayton i < W_net_brayton j
  rw [W_net_brayton_eq i, W_net_brayton_eq j, hwf, hT2, hrp, het]
  nlinarith [key]

/-- The default input tuple with a hotter Brayton turbine inlet (1300 K). -/
noncomputable def hotInputs : Inputs where
  m_biomass := 10.0
  MC := 0.25
  LHV := 18.0
  boiler_p := 8.0
  boiler_T := 500.0
  cond_p := 0.01
  rp := 8.0
  eta_comp := 0.88
  eta_turbine := 0.85
  T3 := 1300.0

/-- The hotter default tuple lies in the documented domain. -/
lemma hotInputs_mem : InDomain hotInputs := by
  unfold InDomain hotInputs
  norm_num

/-- Witness for C6: raising `T3` from 1200 K to 1300 K at the default inputs
strictly increases net Brayton work. -/
theorem brayton_work_monotone_witness :
    InDomain defaultInputs ∧ InDomain hotInputs ∧
    (run_simulation defaultInputs).W_net_brayton
      < (run_simulation hotInputs).W_net_brayton :=
  ⟨defaultInputs_mem, hotInputs_mem,
    brayton_work_monotone defaultInputs hotInputs defaultInputs_mem hotInputs_mem
      rfl rfl rfl rfl rfl rfl rfl rfl rfl
      (by norm_num [defaultInputs, hotInputs])⟩

/-! ### A degenerate in-domain Brayton operating point (for C3) -/

/-- The pressure ratio `2^(7/2) ≈ 11.31`, chosen inside the domain `[2, 20]`
so that `rp^((gamma-1)/gamma) = rp^(2/7) = 2` exactly. -/
noncomputable def rpSpec : ℝ := (2:ℝ) ^ ((7:ℝ)/2)

lemma rpSpec_pow : rpSpec ^ ((gamma - 1)/gamma) = 2 := by
  unfold rpSpec
  rw [exponent_val, ← Real.rpow_mul (by norm_num : (0:ℝ) ≤ 2)]
  have h1 : (7:ℝ)/2 * (2/7) = 1 := by norm_num
  rw [h1, Real.rpow_one]

lemma rpSpec_inv_pow : ((1:ℝ)/rpSpec) ^ ((gamma - 1)/gamma) = 1/2 := by
  have h0 : (0:ℝ) ≤ rpSpec := Real.rpow_nonneg (by norm_num) _
  rw [one_div rpSpec, Real.inv_rpow h0, rpSpec_pow]
  norm_num

lemma rpSpec_ge : 2 ≤ rpSpec := by
  have h := Real.rpow_le_rpow_of_exponent_le
    (by norm_num : (1:ℝ) ≤ 2) (by norm_num : (1:ℝ) ≤ 7/2)
  rwa [Real.rpow_one] at h

lemma rpSpec_le : rpSpec ≤ 20 := by
  have h := Real.rpow_le_rpow_of_exponent_le
    (by norm_num : (1:ℝ) ≤ 2) (by norm_num : (7:ℝ)/2 ≤ 4)
  have h4 : (2:ℝ) ^ ((4:ℝ)) = 16 := by
    rw [show (4:ℝ) = ((4:ℕ):ℝ) by norm_num, Real.rpow_natCast]
    norm_num
  rw [h4] at h
  unfold rpSpec
  linarith

/-- An in-domain operating point where the compressor outlet (894.45 K) sits
just below the turbine inlet (900 K): heat input is tiny and positive while
net work is large and negative. -/
noncomputable def degenInputs : Inputs where
  m_biomass := 10.0
  MC := 0.25
  LHV := 18.0
  boiler_p := 8.0
  boiler_T := 500.0
  cond_p := 0.01
  rp := rpSpec
  eta_comp := 0.5
  eta_turbine := 0.5
  T3 := 900.0

/-- The degenerate operating point lies in the documented domain. -/
lemma degenInputs_mem : InDomain degenInputs := by
  unfold InDomain degenInputs
  refine ⟨by norm_num, by norm_num, by norm_num, by norm_num, by norm_num,
    by norm_num, by norm_num, by norm_num, by norm_num, by norm_num,
    by norm_num, by norm_num, by norm_num, by norm_num,
    rpSpec_ge, rpSpec_le, by norm_num, by norm_num, by norm_num, by norm_num⟩

lemma degen_T2 : T2 degenInputs = 894.45 := by
  unfold T2 T2s T1
  simp only [degenInputs]
  rw [rpSpec_pow]
  norm_num

lemma degen_wf : working_flow degenInputs = 150 := by
  unfold working_flow m_dry AFR
  simp only [degenInputs]
  rw [show (20.0:ℝ) * (10.0 * (1 - 0.25)) = 150 by norm_num]
  exact max_eq_right (by norm_num)

lemma degen_Qin : Qin_total degenInputs = 836.6625 := by
  unfold Qin_total Qin_per_kg Cp
  rw [degen_T2, degen_wf]
  simp only [degenInputs]
  norm_num

lemma degen_Wnet : W_net_brayton degenInputs = -55973.475 := by
  unfold W_net_brayton W_turbine_brayton W_turbine_per_kg T4 T4s W_comp
    W_comp_per_kg Cp T1
  rw [degen_T2, degen_wf]
  simp only [degenInputs]
  rw [rpSpec_inv_pow]
  norm_num

/-- C3 fails as stated: at an explicit in-domain input the returned Brayton
efficiency is about `-66.9` — finite, but nonzero and far outside any
physically sane range for an efficiency. -/
theorem efficiency_sane_counterexample :
    InDomain degenInputs ∧
    (run_simulation degenInputs).eta_brayton < -60 ∧
    (run_simulation degenInputs).eta_brayton ≠ 0 := by
  have he : eta_brayton degenInputs = -55973.475 / 836.6625 := by
    unfold eta_brayton
    rw [if_pos (by rw [degen_Qin]; norm_num)]
    rw [degen_Wnet, degen_Qin]
  refine ⟨degenInputs_mem, ?_, ?_⟩
  · show eta_brayton degenInputs < -60
    rw [he]
    norm_num
  · show eta_brayton degenInputs ≠ 0
    rw [he]
    norm_num

/-- The Brayton efficiency numerator is always strictly below its
denominator in-domain: `W_net_brayton < Qin_total`, because
`eta_turbine * T3 * (1 - (1/rp)^(2/7)) < T3 - 298.15` for `T3 >= 800` and
`rp <= 20` (so `(1/rp)^(2/7) > 1/2.6`). -/
lemma W_net_lt_Qin (i : Inputs) (h : InDomain i) : W_net_brayton i < Qin_total i := by
  obtain ⟨_, _, _, _, _, _, _, _, _, _, _, _, het1, het2, hrp1, hrp2, hec1, hec2,
    hT31, hT32⟩ := h
  have hq1 : 1/2.6 < (1/i.rp) ^ ((gamma - 1)/gamma) := by
    rw [exponent_val]
    exact q_gt hrp1 hrp2
  have hq2 : (1/i.rp) ^ ((gamma - 1)/gamma) < 1 := by
    rw [exponent_val]
    exact q_lt_one hrp1
  have hw : (0:ℝ) < working_flow i := lt_of_lt_of_le one_pos (le_max_left 1 _)
  rw [W_net_brayton_eq, show Qin_total i = Cp * (i.T3 - T2 i) * working_flow i from rfl]
  set q := (1/i.rp) ^ ((gamma - 1)/gamma) with hqdef
  set w := working_flow i with hwdef
  set c := T2 i with hcdef
  unfold Cp T1
  have hq0 : 0 < q := lt_trans (by norm_num) hq1
  have h1q : 0 ≤ i.T3 * (1 - q) := mul_nonneg (by linarith) (by linarith)
  have key1 : i.eta_turbine * (i.T3 * (1 - q)) ≤ i.T3 * (1 - q) := by
    nlinarith [mul_nonneg (by linarith : (0:ℝ) ≤ 1 - i.eta_turbine) h1q]
  have key2 : (298.15:ℝ) < i.T3 * q := by
    nlinarith [mul_le_mul_of_nonneg_right hT31 hq0.le]
  have hper : i.eta_turbine * (i.T3 * (1 - q)) < i.T3 - 298.15 := by nlinarith
  nlinarith [mul_pos (mul_pos (by norm_num : (0:ℝ) < 1.005) hw) (sub_pos.2 hper)]

/-- C3 (amended): for every in-domain input every returned efficiency is a
well-defined (finite) real — guards substitute `0` for non-positive
denominators — and `eta_rankine ∈ [0, 1)`, `eta_combined ≥ 0`,
`eta_brayton < 1`; but `eta_brayton` is NOT confined to a physically sane
range (it can fall below `-60`, see the counterexample). -/
theorem efficiencies_bounded (i : Inputs) (h : InDomain i) :
    0 ≤ (run_simulation i).eta_rankine ∧ (run_simulation i).eta_rankine < 1 ∧
    0 ≤ (run_simulation i).eta_combined ∧ (run_simulation i).eta_brayton < 1 := by
  have hrank : 0 ≤ eta_rankine i ∧ eta_rankine i < 1 := by
    unfold eta_rankine
    split_ifs with hQ
    · have hd : 0 < h3 i - h2 i := by
        have := h3_sub_h2_ge h
        linarith
      have hm : 0 < m_moisture i := by
        by_contra hc
        push_neg at hc
        unfold Q_in_Rankine at hQ
        nlinarith
      have hnum : W_turbine_rankine i - W_pump i
          = m_moisture i * (W_turbine_rankine_per_kg_actual i - W_pump_per_kg i) := by
        unfold W_turbine_rankine W_pump
        rw [h4_eq h]
        ring
      constructor
      · apply div_nonneg _ hQ.le
        rw [hnum]
        apply mul_nonneg hm.le
        linarith [act_ge h, W_pump_per_kg_le h]
      · rw [div_lt_one hQ, hnum]
        unfold Q_in_Rankine h2
        have hact : W_turbine_rankine_per_kg_actual i < h3 i - h1 i := by
          linarith [act_le h, h3_ge h, h1_le i]
        nlinarith
    · exact ⟨le_refl 0, by norm_num⟩
  have hcomb : 0 ≤ eta_combined i := by
    unfold eta_combined
    split_ifs with hpos
    · apply div_nonneg _ hpos.le
      unfold total_output_work
      exact add_nonneg (le_max_left 0 _) (le_max_left 0 _)
    · exact le_refl 0
  have hbray : eta_brayton i < 1 := by
    unfold eta_brayton
    split_ifs with hQ
    · rw [div_lt_one hQ]
      exact W_net_lt_Qin i h
    · norm_num
  exact ⟨hrank.1, hrank.2, hcomb, hbray⟩

/-- Witness for C3 (amended) at the default input tuple. -/
theorem efficiencies_bounded_witness :
    InDomain defaultInputs ∧
    0 ≤ (run_simulation defaultInputs).eta_rankine ∧
    (run_simulation defaultInputs).eta_rankine < 1 ∧
    0 ≤ (run_simulation defaultInputs).eta_combined ∧
    (run_simulation defaultInputs).eta_brayton < 1 :=
  ⟨defaultInputs_mem, efficiencies_bounded defaultInputs defaultInputs_mem⟩

end ADHTC
